import Mathlib

/-!
A shallow embedding of `blog-loader.js`.

JavaScript strings are modelled as lists of characters (`Str`).  Every
delimiter the program looks for (`'\n'`, `'#'`, `' '`, `'*'`, the backquote,
`'"'`) is a single code unit of the Basic Multilingual Plane, so cutting a
well-formed string at those delimiters never splits a surrogate pair and the
character view agrees with the code-unit view of the engine.

The built-ins the program calls (`split`, `startsWith`, `substring`, `trim`,
`replace` with the three regular expressions of `parseMarkdown`, `includes`,
`join`) are modelled after ECMAScript.
-/

namespace BlogLoader

/-- A JavaScript string. -/
abbrev Str := List Char

/-! ## Built-ins used by `parseMarkdown` -/

/-- ECMAScript `LineTerminator`: the characters the regular-expression atom
`.` (without the `s` flag) refuses to match. -/
def isLineTerminator (c : Char) : Bool :=
  c = '\n' || c = '\r' || c = '\u2028' || c = '\u2029'

/-- ECMAScript `WhiteSpace`: TAB, VT, FF, SP, NBSP, ZWNBSP and the Unicode
space separators. -/
def isWhiteSpace (c : Char) : Bool :=
  c.toNat = 0x09 || c.toNat = 0x0B || c.toNat = 0x0C || c.toNat = 0x20 ||
  c.toNat = 0xA0 || c.toNat = 0xFEFF || c.toNat = 0x1680 ||
  (0x2000 ≤ c.toNat && c.toNat ≤ 0x200A) ||
  c.toNat = 0x202F || c.toNat = 0x205F || c.toNat = 0x3000

/-- The characters `String.prototype.trim` strips: white space and line
terminators. -/
def isTrimChar (c : Char) : Bool :=
  isWhiteSpace c || isLineTerminator c

/-- The built-in `String.prototype.trim`. -/
def trim (s : Str) : Str :=
  ((s.dropWhile isTrimChar).reverse.dropWhile isTrimChar).reverse

/-- The built-in `String.prototype.startsWith` (position 0). -/
def startsWith (s p : Str) : Bool :=
  p.isPrefixOf s

/-- The built-in `String.prototype.substring` with a single argument, within
bounds or beyond the end. -/
def substring (s : Str) (n : Nat) : Str :=
  s.drop n

/-- The call `text.split('\n')`: the pieces between consecutive newlines; a string
with `k` newlines has `k + 1` pieces, some of them possibly empty. -/
def splitLines : Str → List Str
  | [] => [[]]
  | c :: cs =>
    if c = '\n' then [] :: splitLines cs
    else
      match splitLines cs with
      | [] => [[c]]
      | l :: ls => (c :: l) :: ls

/-- The built-in `Array.prototype.join('')`. -/
def joinEmpty (parts : List Str) : Str :=
  parts.foldr (fun p acc => p ++ acc) []

/-- The capture group `(.+?)` followed by the closing delimiter `d`, tried on
the text that follows an opening delimiter: the shortest non-empty run of
characters other than line terminators after which `d` occurs.  Returns the
captured group and the text after the closing delimiter, or `none` when the
pattern cannot match from this opening delimiter. -/
def lazyGroup (d : Str) : Str → Option (Str × Str)
  | [] => none
  | c :: cs =>
    if isLineTerminator c then none
    else if d.isPrefixOf cs then some ([c], cs.drop d.length)
    else
      match lazyGroup d cs with
      | some (g, r) => some (c :: g, r)
      | none => none

/-- Global replacement `s.replace(/D(.+?)D/g, O + '$1' + C)` for a literal
delimiter `d`, scanning left to right: at each position the pattern is tried;
on a match the replacement is emitted and the scan resumes after the match,
otherwise one character is copied.  The first argument bounds the number of
scan steps. -/
def replaceFuel (d o c : Str) : Nat → Str → Str
  | 0, s => s
  | _ + 1, [] => []
  | n + 1, ch :: cs =>
    if d.isPrefixOf (ch :: cs) then
      match lazyGroup d ((ch :: cs).drop d.length) with
      | some (g, r) => o ++ g ++ c ++ replaceFuel d o c n r
      | none => ch :: replaceFuel d o c n cs
    else ch :: replaceFuel d o c n cs

/-- Global replacement with as many scan steps as the string has
characters, which is enough for the scan to reach the end. -/
def replaceDelim (d o c : Str) (s : Str) : Str :=
  replaceFuel d o c s.length s

/-! ## `parseMarkdown` -/

/-- The arrow function mapped over the lines in `parseMarkdown`. -/
def convertLine (line : Str) : Str :=
  if startsWith line "# ".toList then
    "<h1 class=\"text-2xl font-bold mt-6 mb-3\">".toList ++ substring line 2 ++ "</h1>".toList
  else if startsWith line "## ".toList then
    "<h2 class=\"text-xl font-bold mt-5 mb-2\">".toList ++ substring line 3 ++ "</h2>".toList
  else if startsWith line "### ".toList then
    "<h3 class=\"text-lg font-bold mt-4 mb-2\">".toList ++ substring line 4 ++ "</h3>".toList
  else if trim line = [] then "<br/>".toList
  else
    let line1 := replaceDelim "**".toList "<strong>".toList "</strong>".toList line
    let line2 := replaceDelim "*".toList "<em>".toList "</em>".toList line1
    let line3 := replaceDelim "`".toList
      "<code class=\"bg-gray-100 px-1 rounded\">".toList "</code>".toList line2
    "<p class=\"mb-3\">".toList ++ line3 ++ "</p>".toList

/-- The function `parseMarkdown(text)`; `none` stands for an absent argument (`undefined`
or `null`). -/
def parseMarkdown : Option Str → Str
  | none => []
  | some [] => []
  | some (c :: cs) => joinEmpty ((splitLines (c :: cs)).map convertLine)

/-! ## Data model -/

/-- An article record of `blog-articles.json`.  `tags` may be absent. -/
structure Article where
  title : Str
  date : Str
  author : Str
  category : Str
  tags : Option (List Str)
  content : Str
  excerpt : Str

/-- The value bound to the key `articles` of the parsed document: no such key
(`absent`, read as `undefined`); a falsy value, that is `null`, `false`, `0` or
the empty string (`falsy`); an array whose elements are article records or
`null`, the latter written `none` (`array`); any other value, that is `true`,
a non-zero number, a non-empty string or an object, none of which has a
`forEach` method (`nonArray`). -/
inductive ArticlesValue where
  | absent
  | falsy
  | array (items : List (Option Article))
  | nonArray

/-- The parsed JSON document, an object. -/
structure Data where
  articles : ArticlesValue

/-- A failure raised by the engine. -/
inductive JSError where
  | typeError
  | other (message : Str)
deriving DecidableEq

/-- The part of the page the program reads and writes: the HTML fragments
held by the `blogList` container, the fragments appended to the document
body, and the two console channels. -/
structure Page where
  blogList : List Str
  body : List Str
  consoleLog : List Str
  consoleError : List (Str × JSError)

/-- A rendered `.blog-card` element as the search filter sees it. -/
structure Card where
  textContent : Str
  display : Str

/-! ## Built-ins used by the templates and the search filter -/

/-- The built-in `Array.prototype.join(sep)`. -/
def joinWith (sep : Str) : List Str → Str
  | [] => []
  | [p] => p
  | p :: q :: ps => p ++ sep ++ joinWith sep (q :: ps)

/-- The built-in `String.prototype.includes`: `term` occurs in `text` at some position. -/
def includes : Str → Str → Bool
  | [], term => term.isPrefixOf []
  | c :: cs, term => term.isPrefixOf (c :: cs) || includes cs term

/-- The replacement `.replace(/"/g, '&quot;')`. -/
def escapeQuot (s : Str) : Str :=
  s.flatMap (fun c => if c = '"' then "&quot;".toList else [c])

/-! ## `loadArticles` -/

/-- The test `article.category === 'featured'`. -/
def isFeatured (article : Article) : Bool :=
  decide (article.category = "featured".toList)

/-- The expression `(article.tags || [])`. -/
def tagsOrEmpty (article : Article) : List Str :=
  match article.tags with
  | some tags => tags
  | none => []

/-- The test `(article.tags || []).includes("Weibo")`. -/
def isWeibo (article : Article) : Bool :=
  (tagsOrEmpty article).contains "Weibo".toList

/-- The expression `isWeibo ? article.content : article.excerpt`. -/
def displayContent (article : Article) : Str :=
  if isWeibo article then article.content else article.excerpt

/-- The value of the `onclick` attribute of a card.  `stringify` stands for
`JSON.stringify`. -/
def onclickAttr (stringify : Article → Str) (article : Article) : Str :=
  if isWeibo article then []
  else "showArticleDetail(".toList ++ escapeQuot (stringify article) ++ ")".toList

/-- The title heading of a card. -/
def titleBlock (article : Article) : Str :=
  if isWeibo article then []
  else
    "\n                    <h2 class=\"text-".toList
    ++ (if isFeatured article then "3xl".toList else "2xl".toList)
    ++ " font-bold ".toList
    ++ (if isFeatured article then [] else "text-gray-900".toList)
    ++ " mb-".toList
    ++ (if isFeatured article then "3".toList else "2".toList)
    ++ "\">\n                        ".toList
    ++ article.title
    ++ "\n                    </h2>\n                    ".toList

/-- The content of the `blog-excerpt` block of a card. -/
def excerptBody (article : Article) : Str :=
  if isWeibo article then parseMarkdown (some (displayContent article))
  else displayContent article

/-- One tag chip. -/
def tagChip (article : Article) (tag : Str) : Str :=
  "<span class=\"text-xs ".toList
  ++ (if isFeatured article then "bg-white bg-opacity-20".toList else "bg-gray-100 text-gray-700".toList)
  ++ " px-3 py-1 rounded-full\">".toList
  ++ tag
  ++ "</span>".toList

/-- The tag chips of a card, `(article.tags || []).map(...).join('')`. -/
def tagChips (article : Article) : Str :=
  joinEmpty ((tagsOrEmpty article).map (tagChip article))

/-- The read-more span of a card. -/
def readMore (article : Article) : Str :=
  if isWeibo article then []
  else
    "<span class=\"text-sm font-semibold ".toList
    ++ (if isFeatured article then [] else "text-blue-600".toList)
    ++ "\">阅读全文 →</span>".toList

/-- The template literal `articleHTML` of `loadArticles`. -/
def articleHTML (stringify : Article → Str) (article : Article) : Str :=
  "\n                <article class=\"blog-card ".toList
  ++ (if isFeatured article then "featured".toList else [])
  ++ " rounded-xl p-".toList
  ++ (if isFeatured article then "8".toList else "6".toList)
  ++ " shadow-".toList
  ++ (if isFeatured article then "lg".toList else "md".toList)
  ++ "\" \n                         onclick=\"".toList
  ++ onclickAttr stringify article
  ++ "\"\n                         style=\"cursor: ".toList
  ++ (if isWeibo article then "default".toList else "pointer".toList)
  ++ "\">\n                    ".toList
  ++ titleBlock article
  ++ "\n                    <p class=\"blog-date text-sm ".toList
  ++ (if isFeatured article then [] else "text-gray-500".toList)
  ++ " mb-".toList
  ++ (if isFeatured article then "4".toList else "3".toList)
  ++ " font-mono\">\n                        ⏰ ".toList
  ++ article.date
  ++ " · ✍️ ".toList
  ++ article.author
  ++ "\n                    </p>\n                    <div class=\"blog-excerpt ".toList
  ++ (if isFeatured article then "text-base".toList else "text-gray-700".toList)
  ++ " leading-relaxed mb-4 ".toList
  ++ (if isWeibo article then "text-lg font-medium".toList else [])
  ++ "\">\n                        ".toList
  ++ excerptBody article
  ++ "\n                    </div>\n                    <div class=\"flex items-center justify-between\">\n                        <div class=\"flex gap-2\">\n                            ".toList
  ++ tagChips article
  ++ "\n                        </div>\n                        ".toList
  ++ readMore article
  ++ "\n                    </div>\n                </article>\n            ".toList

/-- The message logged after rendering. -/
def loadedMessage (n : Nat) : Str :=
  "✅ 已加载 ".toList ++ (Nat.repr n).toList ++ " 篇文章".toList

/-- The remediation panel shown when the page is opened from a local file. -/
def fileProtocolPanel : Str :=
  "\n                <div class=\"bg-amber-50 border-l-4 border-amber-400 p-4 text-amber-800\">\n                    <p class=\"font-bold\">⚠️ 浏览器安全限制</p>\n                    <p class=\"mt-1\">本地直接打开 HTML 无法加载数据。请在开发终端运行：</p>\n                    <code class=\"block mt-2 bg-white p-2 border border-amber-200\">python -m http.server 8000</code>\n                    <p class=\"mt-2 text-sm italic\">然后访问：<a href=\"http://localhost:8000/blog.html\" class=\"underline\">http://localhost:8000/blog.html</a></p>\n                    <p class=\"mt-4 font-bold\">或者直接使用 Python 发布：</p>\n                    <code class=\"block mt-2 bg-white p-2 border border-amber-200\">python manage_blog.py \"在这里输入你的内容\"</code>\n                </div>\n            ".toList

/-- The content of the error panel. -/
def errorMsg (fileProtocol : Bool) : Str :=
  if fileProtocol then fileProtocolPanel
  else "加载文章失败，请检查 blog-articles.json 文件".toList

/-- The call `blogList.insertAdjacentHTML('beforeend', html)`. -/
def insertCard (page : Page) (html : Str) : Page :=
  { page with blogList := page.blogList ++ [html] }

/-- The loop `articles.forEach(article => ...)`: returns the page reached and
the exception that stopped the loop, if any.  Reading `article.category` on a
`null` element raises a `TypeError`. -/
def forEachArticle (stringify : Article → Str) : List (Option Article) → Page → Page × Option JSError
  | [], page => (page, none)
  | none :: _, page => (page, some .typeError)
  | some article :: rest, page =>
    forEachArticle stringify rest (insertCard page (articleHTML stringify article))

/-- The `try` block of `loadArticles`: returns the page reached and the
exception that left the block, if any.  `fetched` is the outcome of fetching
and parsing `blog-articles.json`. -/
def tryBlock (stringify : Article → Str) (fetched : Except JSError Data) (page : Page) :
    Page × Option JSError :=
  match fetched with
  | .error error => (page, some error)
  | .ok data =>
    let cleared := { page with blogList := [] }
    let run := fun (articles : List (Option Article)) =>
      match forEachArticle stringify articles cleared with
      | (rendered, none) =>
        ({ rendered with
            consoleLog := rendered.consoleLog ++ [loadedMessage articles.length] }, none)
      | (reached, some error) => (reached, some error)
    match data.articles with
    | .absent => run []
    | .falsy => run []
    | .array items => run items
    | .nonArray => (cleared, some .typeError)

/-- The function `loadArticles()`: the `try` block, then the `catch` block
when an exception left it.  `fileProtocol` tells whether
`window.location.protocol === 'file:'`. -/
def loadArticles (stringify : Article → Str) (fileProtocol : Bool)
    (fetched : Except JSError Data) (page : Page) : Page :=
  match tryBlock stringify fetched page with
  | (done, none) => done
  | (reached, some error) =>
    { reached with
      consoleError := reached.consoleError ++ [("❌ 加载文章失败:".toList, error)]
      blogList := ["<div class=\"py-8\">".toList ++ errorMsg fileProtocol ++ "</div>".toList] }

/-! ## `showArticleDetail` -/

/-- The function `showArticleDetail(article)`: building the template reads
`article.tags.join`, which raises a `TypeError` when `tags` is absent; otherwise
the overlay is appended to the document body. -/
def showArticleDetail (article : Article) (page : Page) : Except JSError Page :=
  match article.tags with
  | none => .error .typeError
  | some tags =>
    let modalHTML : Str :=
      "\n        <div id=\"articleModal\" class=\"fixed inset-0 bg-black bg-opacity-50 flex items-center justify-center z-50 p-4\" onclick=\"if(event.target.id===\x27articleModal\x27) this.remove()\">\n            <div class=\"bg-white rounded-2xl max-w-3xl w-full max-h-[90vh] overflow-y-auto p-8\" onclick=\"event.stopPropagation()\">\n                <div class=\"flex justify-between items-start mb-6\">\n                    <h1 class=\"text-3xl font-bold text-gray-900 flex-1 pr-4\">".toList
      ++ article.title
      ++ "</h1>\n                    <button onclick=\"document.getElementById(\x27articleModal\x27).remove()\" class=\"text-gray-400 hover:text-gray-600 text-3xl leading-none\">&times;</button>\n                </div>\n                <div class=\"flex items-center gap-3 text-sm text-gray-500 mb-6 font-mono\">\n                    <span>⏰ ".toList
      ++ article.date
      ++ "</span>\n                    <span>·</span>\n                    <span>✍️ ".toList
      ++ article.author
      ++ "</span>\n                    <span>·</span>\n                    <span>".toList
      ++ joinWith ", ".toList tags
      ++ "</span>\n                </div>\n                <div class=\"prose max-w-none text-gray-700 leading-relaxed\">\n                    ".toList
      ++ parseMarkdown (some article.content)
      ++ "\n                </div>\n            </div>\n        </div>\n    ".toList
    .ok { page with body := page.body ++ [modalHTML] }

/-! ## Search filter -/

/-- The `input` listener of the search box: `value` is `e.target.value`,
`cards` are the elements matched by `.blog-card`, `toLowerCase` stands for
`String.prototype.toLowerCase`. -/
def searchInput (toLowerCase : Str → Str) (value : Str) (cards : List Card) : List Card :=
  let term := toLowerCase value
  cards.map (fun card =>
    let text := toLowerCase card.textContent
    { card with display := if includes text term then "block".toList else "none".toList })

/-- Lower-casing of the ASCII letters, the part of `toLowerCase` that
matters for unaccented Latin text. -/
def asciiLower (s : Str) : Str :=
  s.map Char.toLower

/-! ## Sample records -/

/-- An article whose JSON object has no `tags` key. -/
def untaggedArticle : Article :=
  { title := "T".toList, date := "2024-01-01".toList, author := "A".toList,
    category := "essay".toList, tags := none, content := "c".toList,
    excerpt := "e".toList }

/-- A micro-post tagged `Weibo`. -/
def weiboArticle : Article :=
  { title := "T".toList, date := "2024-01-01".toList, author := "A".toList,
    category := "essay".toList, tags := some ["Life".toList, "Weibo".toList],
    content := "# Hi".toList, excerpt := "e".toList }

/-- A long-form article whose tag differs from `Weibo` by case only. -/
def longArticle : Article :=
  { title := "T".toList, date := "2024-01-01".toList, author := "A".toList,
    category := "featured".toList, tags := some ["weibo".toList],
    content := "# Hi".toList, excerpt := "# e".toList }

/-- A page with an empty container, an empty body and silent consoles. -/
def blankPage : Page :=
  { blogList := [], body := [], consoleLog := [], consoleError := [] }

/-! ## Vocabulary of the statements -/

/-- A text with no asterisk, no backquote and no line terminator. -/
def plainText (s : Str) : Prop :=
  ∀ c ∈ s, c ≠ '*' ∧ c ≠ '\x60' ∧ c ≠ '\n' ∧ c ≠ '\r' ∧ c ≠ '\u2028' ∧ c ≠ '\u2029'

/-! ## Lemmas on the built-ins -/

lemma splitLines_of_no_newline (s : Str) (h : '\n' ∉ s) : splitLines s = [s] := by
  induction s with
  | nil => rfl
  | cons c cs ih =>
    have hc : c ≠ '\n' := fun e => h (by simp [e])
    have hcs : '\n' ∉ cs := fun e => h (List.mem_cons_of_mem _ e)
    simp [splitLines, hc, ih hcs]

lemma splitLines_ne_nil (s : Str) : splitLines s ≠ [] := by
  induction s with
  | nil => simp [splitLines]
  | cons c cs ih =>
    unfold splitLines
    split
    · simp
    · split <;> simp

lemma splitLines_append (a b : Str) :
    splitLines (a ++ '\n' :: b) = splitLines a ++ splitLines b := by
  induction a with
  | nil => simp [splitLines]
  | cons c cs ih =>
    by_cases hc : c = '\n'
    · simp [splitLines, hc, ih]
    · have h1 := splitLines_ne_nil cs
      have e1 : ∀ t : Str, splitLines (c :: t) =
          (match splitLines t with
            | [] => [[c]]
            | l :: ls => (c :: l) :: ls) := by
        intro t; simp [splitLines, hc]
      rw [List.cons_append, e1, e1, ih]
      cases hs : splitLines cs with
      | nil => exact absurd hs h1
      | cons l ls => simp

lemma joinEmpty_append (xs ys : List Str) :
    joinEmpty (xs ++ ys) = joinEmpty xs ++ joinEmpty ys := by
  induction xs with
  | nil => rfl
  | cons x xs ih => simp [joinEmpty, List.foldr_cons] at ih ⊢; exact ih

lemma trim_ne_nil (s : Str) (h : ∃ c ∈ s, isTrimChar c = false) : trim s ≠ [] := by
  obtain ⟨c, hc, hcf⟩ := h
  have h1 : s.dropWhile isTrimChar ≠ [] := by
    intro e
    have := (List.dropWhile_eq_nil_iff.mp e) c hc
    simp [hcf] at this
  have h2 := List.head_dropWhile_not isTrimChar s h1
  have h3 : (s.dropWhile isTrimChar).reverse.dropWhile isTrimChar ≠ [] := by
    intro e
    have := (List.dropWhile_eq_nil_iff.mp e) _
      (List.mem_reverse.mpr (List.head_mem h1))
    simp [h2] at this
  simpa [trim] using h3

lemma lazyGroup_rest_length (d : Str) :
    ∀ (s g r : Str), lazyGroup d s = some (g, r) → r.length < s.length := by
  intro s
  induction s with
  | nil => intro g r h; simp [lazyGroup] at h
  | cons c cs ih =>
    intro g r h
    unfold lazyGroup at h
    split at h
    · simp at h
    · split at h
      · simp only [Option.some.injEq, Prod.mk.injEq] at h
        rw [← h.2]
        simp only [List.length_drop, List.length_cons]
        omega
      · split at h
        · rename_i g1 r1 hg
          simp only [Option.some.injEq, Prod.mk.injEq] at h
          have := ih g1 r1 hg
          rw [← h.2]
          simp only [List.length_cons]
          omega
        · simp at h

lemma replaceFuel_fuel (d o c : Str) :
    ∀ (n m : Nat) (s : Str), s.length ≤ n → s.length ≤ m →
      replaceFuel d o c n s = replaceFuel d o c m s := by
  intro n
  induction n with
  | zero =>
    intro m s hn _
    have hs : s = [] := List.length_eq_zero.mp (Nat.le_zero.mp hn)
    subst hs
    cases m <;> rfl
  | succ n ih =>
    intro m s hn hm
    cases s with
    | nil => cases m <;> rfl
    | cons ch cs =>
      cases m with
      | zero => simp at hm
      | succ m =>
        simp only [List.length_cons, Nat.add_le_add_iff_right] at hn hm
        simp only [replaceFuel]
        split
        · cases hg : lazyGroup d (List.drop d.length (ch :: cs)) with
          | none => simp only [ih m cs hn hm]
          | some gr =>
            obtain ⟨g, r⟩ := gr
            have hl := lazyGroup_rest_length d _ g r hg
            simp only [List.length_drop, List.length_cons] at hl
            have hr : r.length ≤ cs.length := by omega
            simp only [ih m r (le_trans hr hn) (le_trans hr hm)]
        · simp only [ih m cs hn hm]

lemma replaceDelim_nil (d o c : Str) : replaceDelim d o c [] = [] := rfl

lemma replaceDelim_cons_skip (d o c : Str) (ch : Char) (cs : Str)
    (h : d.isPrefixOf (ch :: cs) = false ∨ lazyGroup d ((ch :: cs).drop d.length) = none) :
    replaceDelim d o c (ch :: cs) = ch :: replaceDelim d o c cs := by
  simp only [replaceDelim, List.length_cons, replaceFuel]
  rcases h with h | h
  · simp [h]
  · simp only [h]
    split <;> rfl

lemma replaceDelim_cons_match (d o c : Str) (ch : Char) (cs g r : Str)
    (hp : d.isPrefixOf (ch :: cs) = true)
    (hg : lazyGroup d ((ch :: cs).drop d.length) = some (g, r)) :
    replaceDelim d o c (ch :: cs) = o ++ g ++ c ++ replaceDelim d o c r := by
  have hl := lazyGroup_rest_length d _ g r hg
  simp only [List.length_drop, List.length_cons] at hl
  have hr : r.length ≤ cs.length := by omega
  simp only [replaceDelim, List.length_cons, replaceFuel, hp, if_true, hg]
  rw [replaceFuel_fuel d o c cs.length r.length r hr (le_refl _)]


lemma isPrefixOf_cons_of_ne (d0 ch : Char) (ds cs : Str) (h : ch ≠ d0) :
    (d0 :: ds).isPrefixOf (ch :: cs) = false := by
  simp [List.isPrefixOf, Ne.symm h]

lemma isPrefixOf_append_self (d r : Str) : d.isPrefixOf (d ++ r) = true := by
  induction d with
  | nil => simp [List.isPrefixOf]
  | cons x xs ih => simp [List.isPrefixOf, ih]

lemma replaceDelim_append_of_not_mem (d0 : Char) (ds o c : Str) (p s : Str)
    (h : d0 ∉ p) :
    replaceDelim (d0 :: ds) o c (p ++ s) = p ++ replaceDelim (d0 :: ds) o c s := by
  induction p with
  | nil => rfl
  | cons ch cs ih =>
    have hc : ch ≠ d0 := fun e => h (by simp [e])
    have hcs : d0 ∉ cs := fun e => h (List.mem_cons_of_mem _ e)
    rw [List.cons_append,
      replaceDelim_cons_skip _ _ _ _ _ (Or.inl (isPrefixOf_cons_of_ne d0 ch ds _ hc)),
      ih hcs, List.cons_append]

lemma replaceDelim_of_not_mem (d0 : Char) (ds o c : Str) (s : Str) (h : d0 ∉ s) :
    replaceDelim (d0 :: ds) o c s = s := by
  have := replaceDelim_append_of_not_mem d0 ds o c s [] h
  simpa [replaceDelim_nil] using this

lemma lazyGroup_cons_skip (d : Str) (ch : Char) (cs g r : Str)
    (ht : isLineTerminator ch = false) (hp : d.isPrefixOf cs = false)
    (hg : lazyGroup d cs = some (g, r)) :
    lazyGroup d (ch :: cs) = some (ch :: g, r) := by
  simp [lazyGroup, ht, hp, hg]

lemma lazyGroup_of_not_mem (d0 : Char) (ds : Str) :
    ∀ (a rest : Str), a ≠ [] → d0 ∉ a → (∀ x ∈ a, isLineTerminator x = false) →
      lazyGroup (d0 :: ds) (a ++ (d0 :: ds) ++ rest) = some (a, rest) := by
  intro a
  induction a with
  | nil => intro rest h; exact absurd rfl h
  | cons x xs ih =>
    intro rest _ hmem hterm
    have hx : isLineTerminator x = false := hterm x (by simp)
    cases xs with
    | nil =>
      have hp := isPrefixOf_append_self (d0 :: ds) rest
      simp only [List.cons_append, List.nil_append] at hp ⊢
      simp [lazyGroup, hx, hp]
    | cons y ys =>
      have hy : y ≠ d0 := fun e => hmem (by simp [e])
      have hrec := ih rest (by simp) (fun e => hmem (List.mem_cons_of_mem _ e))
        (fun z hz => hterm z (List.mem_cons_of_mem _ hz))
      simp only [List.cons_append, List.append_assoc] at hrec ⊢
      exact lazyGroup_cons_skip _ _ _ _ _ hx (isPrefixOf_cons_of_ne d0 y ds _ hy) hrec


lemma replaceDelim_match (d o c g r rest : Str)
    (hg : lazyGroup d rest = some (g, r)) (hd : d ≠ []) :
    replaceDelim d o c (d ++ rest) = o ++ g ++ c ++ replaceDelim d o c r := by
  cases d with
  | nil => exact absurd rfl hd
  | cons d0 ds =>
    have hp := isPrefixOf_append_self (d0 :: ds) rest
    have hdrop : (d0 :: (ds ++ rest)).drop (d0 :: ds).length = rest := by
      simp
    rw [List.cons_append] at hp ⊢
    exact replaceDelim_cons_match _ _ _ _ _ g r hp (by rw [hdrop]; exact hg)

lemma parseMarkdown_single_line (line : Str) (hne : line ≠ []) (hnl : '\n' ∉ line) :
    parseMarkdown (some line) = convertLine line := by
  cases line with
  | nil => exact absurd rfl hne
  | cons c cs =>
    show joinEmpty ((splitLines (c :: cs)).map convertLine) = _
    rw [splitLines_of_no_newline _ hnl]
    simp [joinEmpty]

lemma convertLine_paragraph (line : Str)
    (h1 : startsWith line "# ".toList = false)
    (h2 : startsWith line "## ".toList = false)
    (h3 : startsWith line "### ".toList = false)
    (ht : trim line ≠ []) :
    convertLine line =
      "<p class=\"mb-3\">".toList ++
        replaceDelim "`".toList "<code class=\"bg-gray-100 px-1 rounded\">".toList
          "</code>".toList
          (replaceDelim "*".toList "<em>".toList "</em>".toList
            (replaceDelim "**".toList "<strong>".toList "</strong>".toList line)) ++
        "</p>".toList := by
  simp only [convertLine, h1, h2, h3, ht, if_false, Bool.false_eq_true]

lemma plainText_not_terminator (s : Str) (h : plainText s) :
    ∀ c ∈ s, isLineTerminator c = false := by
  intro c hc
  obtain ⟨_, _, h1, h2, h3, h4⟩ := h c hc
  simp [isLineTerminator, h1, h2, h3, h4]

lemma plainText_no_star (s : Str) (h : plainText s) : '*' ∉ s :=
  fun hc => (h _ hc).1 rfl

lemma plainText_no_backquote (s : Str) (h : plainText s) : '\x60' ∉ s :=
  fun hc => (h _ hc).2.1 rfl

lemma plainText_no_newline (s : Str) (h : plainText s) : '\n' ∉ s :=
  fun hc => (h _ hc).2.2.1 rfl

lemma includes_iff_occurs (text term : Str) : includes text term = true ↔ term <:+: text := by
  induction text with
  | nil => simp [includes, List.isPrefixOf_iff_prefix]
  | cons c cs ih =>
    simp only [includes, Bool.or_eq_true, List.isPrefixOf_iff_prefix, ih]
    exact List.infix_cons_iff.symm

lemma forEachArticle_records (stringify : Article → Str) (articles : List Article) :
    ∀ page : Page,
      forEachArticle stringify (articles.map some) page =
        ({ page with blogList := page.blogList ++ articles.map (articleHTML stringify) },
          none) := by
  induction articles with
  | nil => intro page; simp [forEachArticle]
  | cons a as ih =>
    intro page
    simp only [List.map_cons, forEachArticle]
    rw [ih]
    simp [insertCard]

lemma tagsOrEmpty_eq (article : Article) : tagsOrEmpty article = article.tags.getD [] := by
  unfold tagsOrEmpty
  cases article.tags <;> rfl

lemma isWeibo_iff (article : Article) :
    isWeibo article = true ↔ "Weibo".toList ∈ article.tags.getD [] := by
  unfold isWeibo tagsOrEmpty
  cases article.tags <;> simp

/-! ## Theorems -/

/-- C1: a line made of one, two or three `#`, one space and a text `s` without
newline converts to exactly the heading of that level holding `s` unchanged;
`# Title` is an `h1` holding `Title`, `### Sub` is an `h3` holding `Sub`. -/
theorem parseMarkdown_heading (s : Str) (hs : '\n' ∉ s) :
    parseMarkdown (some ("# ".toList ++ s)) =
      "<h1 class=\"text-2xl font-bold mt-6 mb-3\">".toList ++ s ++ "</h1>".toList ∧
    parseMarkdown (some ("## ".toList ++ s)) =
      "<h2 class=\"text-xl font-bold mt-5 mb-2\">".toList ++ s ++ "</h2>".toList ∧
    parseMarkdown (some ("### ".toList ++ s)) =
      "<h3 class=\"text-lg font-bold mt-4 mb-2\">".toList ++ s ++ "</h3>".toList ∧
    parseMarkdown (some "# Title".toList) =
      "<h1 class=\"text-2xl font-bold mt-6 mb-3\">Title</h1>".toList ∧
    parseMarkdown (some "### Sub".toList) =
      "<h3 class=\"text-lg font-bold mt-4 mb-2\">Sub</h3>".toList := by
  have e1 : splitLines ('#' :: ' ' :: s) = ['#' :: ' ' :: s] :=
    splitLines_of_no_newline _ (by simp [hs])
  have e2 : splitLines ('#' :: '#' :: ' ' :: s) = ['#' :: '#' :: ' ' :: s] :=
    splitLines_of_no_newline _ (by simp [hs])
  have e3 : splitLines ('#' :: '#' :: '#' :: ' ' :: s) = ['#' :: '#' :: '#' :: ' ' :: s] :=
    splitLines_of_no_newline _ (by simp [hs])
  refine ⟨?_, ?_, ?_, by decide, by decide⟩
  · show joinEmpty ((splitLines ('#' :: ' ' :: s)).map convertLine) = _
    rw [e1]
    simp [joinEmpty, convertLine, startsWith, substring, List.isPrefixOf]
  · show joinEmpty ((splitLines ('#' :: '#' :: ' ' :: s)).map convertLine) = _
    rw [e2]
    simp [joinEmpty, convertLine, startsWith, substring, List.isPrefixOf]
  · show joinEmpty ((splitLines ('#' :: '#' :: '#' :: ' ' :: s)).map convertLine) = _
    rw [e3]
    simp [joinEmpty, convertLine, startsWith, substring, List.isPrefixOf]

/-- Witness of C1: a level-2 heading whose text holds asterisks. -/
theorem parseMarkdown_heading_witness :
    parseMarkdown (some ("## ".toList ++ "Hello *x*".toList)) =
      "<h2 class=\"text-xl font-bold mt-5 mb-2\">".toList ++ "Hello *x*".toList ++ "</h2>".toList :=
  (parseMarkdown_heading "Hello *x*".toList (by decide)).2.1

/-- C3: `parseMarkdown` returns the empty string for an absent argument and
for the empty string. -/
theorem parseMarkdown_absent_or_empty :
    parseMarkdown none = [] ∧ parseMarkdown (some []) = [] :=
  ⟨rfl, rfl⟩

/-- C4: for a non-empty text the result is the concatenation, in order and
with nothing in between, of the conversions of the lines obtained by splitting
on newline; and for non-empty `a` and `b` the conversion of `a`, newline, `b`
is the conversion of `a` followed by the conversion of `b`. -/
theorem parseMarkdown_line_independent :
    (∀ text : Str, text ≠ [] →
      parseMarkdown (some text) = joinEmpty ((splitLines text).map convertLine)) ∧
    (∀ a b : Str, a ≠ [] → b ≠ [] →
      parseMarkdown (some (a ++ '\n' :: b)) =
        parseMarkdown (some a) ++ parseMarkdown (some b)) := by
  have key : ∀ text : Str, text ≠ [] →
      parseMarkdown (some text) = joinEmpty ((splitLines text).map convertLine) := by
    intro text h
    cases text with
    | nil => exact absurd rfl h
    | cons c cs => rfl
  refine ⟨fun text h => key text h, ?_⟩
  intro a b ha hb
  rw [key a ha, key b hb, key _ (by simp [ha]), splitLines_append, List.map_append,
    joinEmpty_append]

/-- Witness of C4: a heading line, an empty line and a paragraph line. -/
theorem parseMarkdown_line_independent_witness :
    parseMarkdown (some ("# T\n".toList ++ '\n' :: "p".toList)) =
      parseMarkdown (some "# T\n".toList) ++ parseMarkdown (some "p".toList) :=
  parseMarkdown_line_independent.2 "# T\n".toList "p".toList (by decide) (by decide)


/-- C5: a line without newline, asterisk or backquote that starts with none
of the three heading prefixes and has a character that `trim` keeps converts to
the paragraph element holding the line character for character. -/
theorem parseMarkdown_passthrough (line : Str)
    (hnl : '\n' ∉ line) (hstar : '*' ∉ line) (hbq : '\x60' ∉ line)
    (h1 : ¬ "# ".toList <+: line) (h2 : ¬ "## ".toList <+: line)
    (h3 : ¬ "### ".toList <+: line)
    (hws : ∃ c ∈ line, isTrimChar c = false) :
    parseMarkdown (some line) = "<p class=\"mb-3\">".toList ++ line ++ "</p>".toList := by
  have hne : line ≠ [] := by
    obtain ⟨c, hc, _⟩ := hws
    exact List.ne_nil_of_mem hc
  have s1 : startsWith line "# ".toList = false := by
    simpa [startsWith, ← List.isPrefixOf_iff_prefix] using h1
  have s2 : startsWith line "## ".toList = false := by
    simpa [startsWith, ← List.isPrefixOf_iff_prefix] using h2
  have s3 : startsWith line "### ".toList = false := by
    simpa [startsWith, ← List.isPrefixOf_iff_prefix] using h3
  rw [parseMarkdown_single_line line hne hnl,
    convertLine_paragraph line s1 s2 s3 (trim_ne_nil line hws)]
  have b1 : replaceDelim "**".toList "<strong>".toList "</strong>".toList line = line :=
    replaceDelim_of_not_mem '*' ['*'] _ _ line hstar
  have b2 : replaceDelim "*".toList "<em>".toList "</em>".toList line = line :=
    replaceDelim_of_not_mem '*' [] _ _ line hstar
  have b3 : replaceDelim "`".toList "<code class=\"bg-gray-100 px-1 rounded\">".toList
      "</code>".toList line = line :=
    replaceDelim_of_not_mem '\x60' [] _ _ line hbq
  rw [b1, b2, b3]

/-- Witness of C5: a line with HTML-significant characters. -/
theorem parseMarkdown_passthrough_witness :
    parseMarkdown (some "a <b> & c".toList) =
      "<p class=\"mb-3\">".toList ++ "a <b> & c".toList ++ "</p>".toList :=
  parseMarkdown_passthrough "a <b> & c".toList (by decide) (by decide) (by decide)
    (by decide) (by decide) (by decide) ⟨'a', by decide, by decide⟩


/-- C2: for non-empty `a` and `b` without asterisk, backquote or line
terminator, the line `**a** and *b*` converts to the paragraph holding `a` in
one bold element and `b` in one italic element, with no asterisk left. -/
theorem parseMarkdown_bold_italic (a b : Str) (ha : a ≠ []) (hb : b ≠ [])
    (hpa : plainText a) (hpb : plainText b) :
    parseMarkdown (some ("**".toList ++ a ++ "** and *".toList ++ b ++ "*".toList)) =
      "<p class=\"mb-3\"><strong>".toList ++ a ++ "</strong> and <em>".toList ++ b ++
        "</em></p>".toList := by
  have hsa := plainText_no_star a hpa
  have hsb := plainText_no_star b hpb
  have hne : "**".toList ++ a ++ "** and *".toList ++ b ++ "*".toList ≠ [] := by simp
  have hnl : '\n' ∉ "**".toList ++ a ++ "** and *".toList ++ b ++ "*".toList := by
    simp [plainText_no_newline a hpa, plainText_no_newline b hpb]
  have s1 : startsWith ("**".toList ++ a ++ "** and *".toList ++ b ++ "*".toList)
      "# ".toList = false := by simp [startsWith, List.isPrefixOf]
  have s2 : startsWith ("**".toList ++ a ++ "** and *".toList ++ b ++ "*".toList)
      "## ".toList = false := by simp [startsWith, List.isPrefixOf]
  have s3 : startsWith ("**".toList ++ a ++ "** and *".toList ++ b ++ "*".toList)
      "### ".toList = false := by simp [startsWith, List.isPrefixOf]
  have ht : trim ("**".toList ++ a ++ "** and *".toList ++ b ++ "*".toList) ≠ [] :=
    trim_ne_nil _ ⟨'*', by simp, by decide⟩
  -- bold pass
  have g1 : lazyGroup ['*', '*'] (a ++ ['*', '*'] ++ (" and *".toList ++ b ++ "*".toList)) =
      some (a, " and *".toList ++ b ++ "*".toList) :=
    lazyGroup_of_not_mem '*' ['*'] a _ ha hsa (plainText_not_terminator a hpa)
  have b1 := replaceDelim_match ['*', '*'] "<strong>".toList "</strong>".toList _ _ _ g1
    (by simp)
  have b2 : replaceDelim ['*', '*'] "<strong>".toList "</strong>".toList
      (" and *".toList ++ b ++ "*".toList) = " and *".toList ++ b ++ "*".toList := by
    have e1 := replaceDelim_append_of_not_mem '*' ['*'] "<strong>".toList "</strong>".toList
      " and ".toList ('*' :: (b ++ ['*'])) (by decide)
    have e2 : replaceDelim ['*', '*'] "<strong>".toList "</strong>".toList
        ('*' :: (b ++ ['*'])) = '*' :: (b ++ ['*']) := by
      cases b with
      | nil => exact absurd rfl hb
      | cons y ys =>
        have hy : y ≠ '*' := fun e => hsb (by simp [e])
        rw [replaceDelim_cons_skip _ _ _ _ _
          (Or.inl (by simp [List.isPrefixOf, Ne.symm hy]))]
        rw [replaceDelim_append_of_not_mem '*' ['*'] _ _ (y :: ys) ['*'] hsb]
        rfl
    rw [e2] at e1
    simpa using e1
  have hB : replaceDelim "**".toList "<strong>".toList "</strong>".toList
      ("**".toList ++ a ++ "** and *".toList ++ b ++ "*".toList) =
      "<strong>".toList ++ a ++ "</strong> and ".toList ++ ('*' :: (b ++ ['*'])) := by
    rw [b2] at b1
    simpa using b1
  -- italic pass
  have g2 : lazyGroup ['*'] (b ++ ['*'] ++ []) = some (b, []) :=
    lazyGroup_of_not_mem '*' [] b [] hb hsb (plainText_not_terminator b hpb)
  have i1 := replaceDelim_match ['*'] "<em>".toList "</em>".toList _ _ _ g2 (by simp)
  have i2 := replaceDelim_append_of_not_mem '*' [] "<em>".toList "</em>".toList
    ("<strong>".toList ++ a ++ "</strong> and ".toList) (['*'] ++ (b ++ ['*'] ++ []))
    (by simp [hsa])
  rw [i1] at i2
  have hI : replaceDelim "*".toList "<em>".toList "</em>".toList
      ("<strong>".toList ++ a ++ "</strong> and ".toList ++ ('*' :: (b ++ ['*']))) =
      "<strong>".toList ++ a ++ "</strong> and <em>".toList ++ b ++ "</em>".toList := by
    simpa [replaceDelim_nil] using i2
  -- code pass
  have hC : replaceDelim "`".toList "<code class=\"bg-gray-100 px-1 rounded\">".toList
      "</code>".toList
      ("<strong>".toList ++ a ++ "</strong> and <em>".toList ++ b ++ "</em>".toList) =
      "<strong>".toList ++ a ++ "</strong> and <em>".toList ++ b ++ "</em>".toList :=
    replaceDelim_of_not_mem '\x60' [] _ _ _
      (by simp [plainText_no_backquote a hpa, plainText_no_backquote b hpb])
  rw [parseMarkdown_single_line _ hne hnl, convertLine_paragraph _ s1 s2 s3 ht, hB, hI, hC]
  simp

/-- Witness of C2 at `a = "bold"`, `b = "italic"`. -/
theorem parseMarkdown_bold_italic_witness :
    parseMarkdown (some ("**".toList ++ "bold".toList ++ "** and *".toList ++
      "italic".toList ++ "*".toList)) =
      "<p class=\"mb-3\"><strong>".toList ++ "bold".toList ++ "</strong> and <em>".toList ++
        "italic".toList ++ "</em></p>".toList :=
  parseMarkdown_bold_italic "bold".toList "italic".toList (by decide) (by decide)
    (by unfold plainText; decide) (by unfold plainText; decide)


/-- C10, counterexample: for `x = "a"` the conversion of `****a****` does
not contain `<strong>a</strong>`. -/
theorem parseMarkdown_nested_bold_counterexample :
    "a".toList ≠ [] ∧ plainText "a".toList ∧
    parseMarkdown (some ("****".toList ++ "a".toList ++ "****".toList)) =
      "<p class=\"mb-3\"><strong><em>*a</strong></em>*</p>".toList ∧
    ¬ (("<strong>".toList ++ "a".toList ++ "</strong>".toList) <:+:
        parseMarkdown (some ("****".toList ++ "a".toList ++ "****".toList))) := by
  refine ⟨by decide, by unfold plainText; decide, by decide, by decide⟩

/-- C10, amended: the bold match is non-greedy and starts at the leftmost
opening pair.  For non-empty `x` without asterisk, backquote or line
terminator, the bold pass on `****x****` captures `**x` between the first pair
and the first pair after `x`, and the converted line is
`<p class="mb-3"><strong><em>*x</strong></em>*</p>`. -/
theorem parseMarkdown_nested_bold (x : Str) (hx : x ≠ []) (hp : plainText x) :
    replaceDelim "**".toList "<strong>".toList "</strong>".toList
        ("****".toList ++ x ++ "****".toList) =
      "<strong>**".toList ++ x ++ "</strong>**".toList ∧
    parseMarkdown (some ("****".toList ++ x ++ "****".toList)) =
      "<p class=\"mb-3\"><strong><em>*".toList ++ x ++ "</strong></em>*</p>".toList := by
  have hsx := plainText_no_star x hp
  have htx := plainText_not_terminator x hp
  have hne : "****".toList ++ x ++ "****".toList ≠ [] := by simp
  have hnl : '\n' ∉ "****".toList ++ x ++ "****".toList := by
    simp [plainText_no_newline x hp]
  have s1 : startsWith ("****".toList ++ x ++ "****".toList) "# ".toList = false := by
    simp [startsWith, List.isPrefixOf]
  have s2 : startsWith ("****".toList ++ x ++ "****".toList) "## ".toList = false := by
    simp [startsWith, List.isPrefixOf]
  have s3 : startsWith ("****".toList ++ x ++ "****".toList) "### ".toList = false := by
    simp [startsWith, List.isPrefixOf]
  have ht : trim ("****".toList ++ x ++ "****".toList) ≠ [] :=
    trim_ne_nil _ ⟨'*', by simp, by decide⟩
  have hhead : ∀ (ds rest : Str), ('*' :: ds).isPrefixOf (x ++ rest) = false := by
    intro ds rest
    cases x with
    | nil => exact absurd rfl hx
    | cons y ys =>
      have hy : y ≠ '*' := fun e => hsx (by simp [e])
      exact isPrefixOf_cons_of_ne '*' y ds _ hy
  -- bold pass
  have g0 : lazyGroup ['*', '*'] (x ++ ['*', '*'] ++ ['*', '*']) = some (x, ['*', '*']) :=
    lazyGroup_of_not_mem '*' ['*'] x _ hx hsx htx
  have g1 := lazyGroup_cons_skip ['*', '*'] '*' _ _ _ (by decide)
    (by simpa using hhead ['*'] (['*', '*'] ++ ['*', '*'])) g0
  have g2 := lazyGroup_cons_skip ['*', '*'] '*' _ _ _ (by decide)
    (by simpa [List.isPrefixOf] using hhead [] (['*', '*'] ++ ['*', '*'])) g1
  have b1 := replaceDelim_match ['*', '*'] "<strong>".toList "</strong>".toList _ _ _ g2
    (by simp)
  have b2 : replaceDelim ['*', '*'] "<strong>".toList "</strong>".toList ['*', '*'] =
      ['*', '*'] := by decide
  have hB : replaceDelim "**".toList "<strong>".toList "</strong>".toList
      ("****".toList ++ x ++ "****".toList) =
      "<strong>**".toList ++ x ++ "</strong>**".toList := by
    rw [b2] at b1
    simpa using b1
  -- italic pass
  have g3 : lazyGroup ['*'] (x ++ "</strong>".toList ++ ['*'] ++ ['*']) =
      some (x ++ "</strong>".toList, ['*']) :=
    lazyGroup_of_not_mem '*' [] (x ++ "</strong>".toList) ['*'] (by simp)
      (by simp [hsx]) (by
        intro c hc
        rcases List.mem_append.mp hc with h | h
        · exact htx c h
        · have hall : ∀ z ∈ "</strong>".toList, isLineTerminator z = false := by decide
          exact hall c h)
  have g4 := lazyGroup_cons_skip ['*'] '*' _ _ _ (by decide)
    (by simpa [List.append_assoc] using hhead [] ("</strong>".toList ++ ['*'] ++ ['*'])) g3
  have i1 := replaceDelim_match ['*'] "<em>".toList "</em>".toList _ _ _ g4 (by simp)
  have i2 : replaceDelim ['*'] "<em>".toList "</em>".toList ['*'] = ['*'] := by decide
  have i3 := replaceDelim_append_of_not_mem '*' [] "<em>".toList "</em>".toList
    "<strong>".toList (['*'] ++ ('*' :: (x ++ "</strong>".toList ++ ['*'] ++ ['*'])))
    (by decide)
  rw [i1, i2] at i3
  have hI : replaceDelim "*".toList "<em>".toList "</em>".toList
      ("<strong>**".toList ++ x ++ "</strong>**".toList) =
      "<strong><em>*".toList ++ x ++ "</strong></em>*".toList := by
    simpa using i3
  -- code pass
  have hC : replaceDelim "`".toList "<code class=\"bg-gray-100 px-1 rounded\">".toList
      "</code>".toList ("<strong><em>*".toList ++ x ++ "</strong></em>*".toList) =
      "<strong><em>*".toList ++ x ++ "</strong></em>*".toList :=
    replaceDelim_of_not_mem '\x60' [] _ _ _ (by simp [plainText_no_backquote x hp])
  refine ⟨hB, ?_⟩
  rw [parseMarkdown_single_line _ hne hnl, convertLine_paragraph _ s1 s2 s3 ht, hB, hI, hC]
  simp

/-- Witness of the amended C10 at `x = "hi"`. -/
theorem parseMarkdown_nested_bold_witness :
    parseMarkdown (some ("****".toList ++ "hi".toList ++ "****".toList)) =
      "<p class=\"mb-3\"><strong><em>*".toList ++ "hi".toList ++ "</strong></em>*</p>".toList :=
  (parseMarkdown_nested_bold "hi".toList (by decide) (by unfold plainText; decide)).2


set_option maxRecDepth 100000 in
/-- C6: when the tags of an article (absent tags counting as none) hold an
element equal to `Weibo`, the rendered card is the markup below: its `onclick`
attribute is empty, no `h2` title heading stands between the opening tag and
the date paragraph, no read-more span follows the tag chips, and the excerpt
block holds the markdown conversion of `content`.  Otherwise the rendered card
is the second markup: the `onclick` attribute calls `showArticleDetail` on the
serialised article, and the excerpt block holds `excerpt` verbatim. -/
theorem card_weibo_discriminator (stringify : Article → Str) (article : Article) :
    ("Weibo".toList ∈ article.tags.getD [] →
      articleHTML stringify article =
      "\n                <article class=\"blog-card ".toList
      ++ (if article.category = "featured".toList then "featured".toList else [])
      ++ " rounded-xl p-".toList
      ++ (if article.category = "featured".toList then "8".toList else "6".toList)
      ++ " shadow-".toList
      ++ (if article.category = "featured".toList then "lg".toList else "md".toList)
      ++ "\" \n                         onclick=\"".toList
      ++ "\"\n                         style=\"cursor: ".toList
      ++ "default".toList
      ++ "\">\n                    ".toList
      ++ "\n                    <p class=\"blog-date text-sm ".toList
      ++ (if article.category = "featured".toList then [] else "text-gray-500".toList)
      ++ " mb-".toList
      ++ (if article.category = "featured".toList then "4".toList else "3".toList)
      ++ " font-mono\">\n                        ⏰ ".toList
      ++ article.date
      ++ " · ✍️ ".toList
      ++ article.author
      ++ "\n                    </p>\n                    <div class=\"blog-excerpt ".toList
      ++ (if article.category = "featured".toList then "text-base".toList else "text-gray-700".toList)
      ++ " leading-relaxed mb-4 ".toList
      ++ "text-lg font-medium".toList
      ++ "\">\n                        ".toList
      ++ parseMarkdown (some article.content)
      ++ "\n                    </div>\n                    <div class=\"flex items-center justify-between\">\n                        <div class=\"flex gap-2\">\n                            ".toList
      ++ joinEmpty ((article.tags.getD []).map (fun tag =>
        "<span class=\"text-xs ".toList
        ++ (if article.category = "featured".toList then "bg-white bg-opacity-20".toList else "bg-gray-100 text-gray-700".toList)
        ++ " px-3 py-1 rounded-full\">".toList
        ++ tag
        ++ "</span>".toList))
      ++ "\n                        </div>\n                        ".toList
      ++ "\n                    </div>\n                </article>\n            ".toList) ∧
    ("Weibo".toList ∉ article.tags.getD [] →
      articleHTML stringify article =
      "\n                <article class=\"blog-card ".toList
      ++ (if article.category = "featured".toList then "featured".toList else [])
      ++ " rounded-xl p-".toList
      ++ (if article.category = "featured".toList then "8".toList else "6".toList)
      ++ " shadow-".toList
      ++ (if article.category = "featured".toList then "lg".toList else "md".toList)
      ++ "\" \n                         onclick=\"".toList
      ++ "showArticleDetail(".toList
      ++ escapeQuot (stringify article)
      ++ ")".toList
      ++ "\"\n                         style=\"cursor: ".toList
      ++ "pointer".toList
      ++ "\">\n                    ".toList
      ++ "\n                    <h2 class=\"text-".toList
      ++ (if article.category = "featured".toList then "3xl".toList else "2xl".toList)
      ++ " font-bold ".toList
      ++ (if article.category = "featured".toList then [] else "text-gray-900".toList)
      ++ " mb-".toList
      ++ (if article.category = "featured".toList then "3".toList else "2".toList)
      ++ "\">\n                        ".toList
      ++ article.title
      ++ "\n                    </h2>\n                    ".toList
      ++ "\n                    <p class=\"blog-date text-sm ".toList
      ++ (if article.category = "featured".toList then [] else "text-gray-500".toList)
      ++ " mb-".toList
      ++ (if article.category = "featured".toList then "4".toList else "3".toList)
      ++ " font-mono\">\n                        ⏰ ".toList
      ++ article.date
      ++ " · ✍️ ".toList
      ++ article.author
      ++ "\n                    </p>\n                    <div class=\"blog-excerpt ".toList
      ++ (if article.category = "featured".toList then "text-base".toList else "text-gray-700".toList)
      ++ " leading-relaxed mb-4 ".toList
      ++ "\">\n                        ".toList
      ++ article.excerpt
      ++ "\n                    </div>\n                    <div class=\"flex items-center justify-between\">\n                        <div class=\"flex gap-2\">\n                            ".toList
      ++ joinEmpty ((article.tags.getD []).map (fun tag =>
        "<span class=\"text-xs ".toList
        ++ (if article.category = "featured".toList then "bg-white bg-opacity-20".toList else "bg-gray-100 text-gray-700".toList)
        ++ " px-3 py-1 rounded-full\">".toList
        ++ tag
        ++ "</span>".toList))
      ++ "\n                        </div>\n                        ".toList
      ++ "<span class=\"text-sm font-semibold ".toList
      ++ (if article.category = "featured".toList then [] else "text-blue-600".toList)
      ++ "\">阅读全文 →</span>".toList
      ++ "\n                    </div>\n                </article>\n            ".toList) := by
  constructor
  · intro h
    have hw : isWeibo article = true := (isWeibo_iff article).mpr h
    have hchip : tagChip article = fun tag => tagChip article tag := rfl
    simp only [articleHTML, onclickAttr, titleBlock, readMore, excerptBody, displayContent,
      tagChips, tagsOrEmpty_eq, hw, eq_self_iff_true, if_true, Bool.false_eq_true, if_false,
      isFeatured, decide_eq_true_eq, List.append_nil, List.append_assoc]
    rw [hchip]
    simp only [tagChip, isFeatured, decide_eq_true_eq, List.append_assoc]
  · intro h
    have hw : isWeibo article = false := by
      cases hb : isWeibo article with
      | false => rfl
      | true => exact absurd ((isWeibo_iff article).mp hb) h
    have hchip : tagChip article = fun tag => tagChip article tag := rfl
    simp only [articleHTML, onclickAttr, titleBlock, readMore, excerptBody, displayContent,
      tagChips, tagsOrEmpty_eq, hw, eq_self_iff_true, if_true, Bool.false_eq_true, if_false,
      isFeatured, decide_eq_true_eq, List.append_nil, List.append_assoc]
    rw [hchip]
    simp only [tagChip, isFeatured, decide_eq_true_eq, List.append_assoc]



set_option maxRecDepth 100000 in
/-- Witness of C6: the full markup of a card tagged `Weibo` and of a card
tagged `weibo`. -/
theorem card_weibo_discriminator_witness :
    articleHTML (fun _ => "J".toList) weiboArticle =
      "\n                <article class=\"blog-card  rounded-xl p-6 shadow-md\" \n                         onclick=\"\"\n                         style=\"cursor: default\">\n                    \n                    <p class=\"blog-date text-sm text-gray-500 mb-3 font-mono\">\n                        ⏰ 2024-01-01 · ✍️ A\n                    </p>\n                    <div class=\"blog-excerpt text-gray-700 leading-relaxed mb-4 text-lg font-medium\">\n                        <h1 class=\"text-2xl font-bold mt-6 mb-3\">Hi</h1>\n                    </div>\n                    <div class=\"flex items-center justify-between\">\n                        <div class=\"flex gap-2\">\n                            <span class=\"text-xs bg-gray-100 text-gray-700 px-3 py-1 rounded-full\">Life</span><span class=\"text-xs bg-gray-100 text-gray-700 px-3 py-1 rounded-full\">Weibo</span>\n                        </div>\n                        \n                    </div>\n                </article>\n            ".toList ∧
    articleHTML (fun _ => "\"T\"".toList) longArticle =
      "\n                <article class=\"blog-card featured rounded-xl p-8 shadow-lg\" \n                         onclick=\"showArticleDetail(&quot;T&quot;)\"\n                         style=\"cursor: pointer\">\n                    \n                    <h2 class=\"text-3xl font-bold  mb-3\">\n                        T\n                    </h2>\n                    \n                    <p class=\"blog-date text-sm  mb-4 font-mono\">\n                        ⏰ 2024-01-01 · ✍️ A\n                    </p>\n                    <div class=\"blog-excerpt text-base leading-relaxed mb-4 \">\n                        # e\n                    </div>\n                    <div class=\"flex items-center justify-between\">\n                        <div class=\"flex gap-2\">\n                            <span class=\"text-xs bg-white bg-opacity-20 px-3 py-1 rounded-full\">weibo</span>\n                        </div>\n                        <span class=\"text-sm font-semibold \">阅读全文 →</span>\n                    </div>\n                </article>\n            ".toList :=
  ⟨((card_weibo_discriminator (fun _ => "J".toList) weiboArticle).1 (by decide)).trans
      (by decide),
   ((card_weibo_discriminator (fun _ => "\"T\"".toList) longArticle).2 (by decide)).trans
      (by decide)⟩

/-- C7, counterexample: a parsed object whose `articles` value is not an array
(such as the number 5), or is an array holding `null`, ends with the error
panel in the container, nothing logged, and one report on the error channel:
no card per element, no logged count. -/
theorem loadArticles_cards_counterexample :
    (loadArticles (fun _ => []) false (.ok ⟨.nonArray⟩) blankPage).blogList =
      ["<div class=\"py-8\">加载文章失败，请检查 blog-articles.json 文件</div>".toList] ∧
    (loadArticles (fun _ => []) false (.ok ⟨.nonArray⟩) blankPage).consoleLog = [] ∧
    (loadArticles (fun _ => []) false (.ok ⟨.nonArray⟩) blankPage).consoleError =
      [("❌ 加载文章失败:".toList, .typeError)] ∧
    (loadArticles (fun _ => []) false (.ok ⟨.array [none]⟩) blankPage).blogList =
      ["<div class=\"py-8\">加载文章失败，请检查 blog-articles.json 文件</div>".toList] ∧
    (loadArticles (fun _ => []) false (.ok ⟨.array [none]⟩) blankPage).consoleLog = [] ∧
    (loadArticles (fun _ => []) false (.ok ⟨.array [none]⟩) blankPage).consoleError =
      [("❌ 加载文章失败:".toList, .typeError)] := by
  refine ⟨by decide, by decide, by decide, by decide, by decide, by decide⟩

/-- C7, amended: on a parsed object whose `articles` value is an array of
article records, the container ends up holding exactly the cards of the
articles, in order, whatever it held before; the logged message is
`✅ 已加载 n 篇文章` with `n` the number of articles in decimal; nothing is
reported on the error channel.  With the `articles` key missing, or bound to a
falsy value, the container is empty and the logged count is zero.  With the
key bound to any other value that is not an array, the container holds the
error panel, nothing is logged and a `TypeError` is reported. -/
theorem loadArticles_cards (stringify : Article → Str) (fileProtocol : Bool)
    (articles : List Article) (page : Page) :
    (loadArticles stringify fileProtocol (.ok ⟨.array (articles.map some)⟩) page).blogList =
      articles.map (articleHTML stringify) ∧
    (loadArticles stringify fileProtocol (.ok ⟨.array (articles.map some)⟩) page).consoleLog =
      page.consoleLog ++
        ["✅ 已加载 ".toList ++ Nat.toDigits 10 articles.length ++ " 篇文章".toList] ∧
    (loadArticles stringify fileProtocol (.ok ⟨.array (articles.map some)⟩) page).consoleError =
      page.consoleError ∧
    (∀ a b c : Article,
      (loadArticles stringify fileProtocol (.ok ⟨.array [some a, some b, some c]⟩)
        page).consoleLog = page.consoleLog ++ ["✅ 已加载 3 篇文章".toList]) ∧
    (loadArticles stringify fileProtocol (.ok ⟨.absent⟩) page).blogList = [] ∧
    (loadArticles stringify fileProtocol (.ok ⟨.absent⟩) page).consoleLog =
      page.consoleLog ++ ["✅ 已加载 0 篇文章".toList] ∧
    (loadArticles stringify fileProtocol (.ok ⟨.absent⟩) page).consoleError =
      page.consoleError ∧
    loadArticles stringify fileProtocol (.ok ⟨.falsy⟩) page =
      loadArticles stringify fileProtocol (.ok ⟨.absent⟩) page ∧
    (loadArticles stringify fileProtocol (.ok ⟨.nonArray⟩) page).blogList =
      ["<div class=\"py-8\">".toList ++ errorMsg fileProtocol ++ "</div>".toList] ∧
    (loadArticles stringify fileProtocol (.ok ⟨.nonArray⟩) page).consoleLog =
      page.consoleLog ∧
    (loadArticles stringify fileProtocol (.ok ⟨.nonArray⟩) page).consoleError =
      page.consoleError ++ [("❌ 加载文章失败:".toList, .typeError)] := by
  have key : ∀ as : List Article,
      loadArticles stringify fileProtocol (.ok ⟨.array (as.map some)⟩) page =
        { page with
          blogList := as.map (articleHTML stringify)
          consoleLog := page.consoleLog ++
            ["✅ 已加载 ".toList ++ Nat.toDigits 10 as.length ++ " 篇文章".toList] } := by
    intro as
    simp [loadArticles, tryBlock, forEachArticle_records, loadedMessage, Nat.repr, List.asString]
  have key3 : ∀ a b c : Article,
      [some a, some b, some c] = ([a, b, c] : List Article).map some := fun _ _ _ => rfl
  have d3 : Nat.toDigits 10 3 = ['3'] := by decide
  refine ⟨by rw [key], by rw [key], by rw [key], ?_, rfl, ?_, rfl, rfl, rfl, rfl, rfl⟩
  · intro a b c
    rw [key3, key]
    simp [d3]
  · have : loadedMessage 0 = "✅ 已加载 0 篇文章".toList := by decide
    simp [loadArticles, tryBlock, forEachArticle, this]

/-- C8: after the input listener runs, every card keeps its text and is shown
(`block`) exactly when the lower-cased term occurs in its lower-cased text and
hidden (`none`) otherwise; running the listener after an earlier term gives the
same result as running it alone; with cards `Alpha` and `Beta` the term `al`
leaves the first shown and the second hidden. -/
theorem searchInput_visibility (toLowerCase : Str → Str) (value : Str) (cards : List Card) :
    searchInput toLowerCase value cards =
      cards.map (fun card =>
        { textContent := card.textContent
          display := if toLowerCase value <:+: toLowerCase card.textContent
            then "block".toList else "none".toList }) ∧
    (∀ earlier : Str,
      searchInput toLowerCase value (searchInput toLowerCase earlier cards) =
        searchInput toLowerCase value cards) ∧
    (toLowerCase "Alpha".toList = "alpha".toList →
      toLowerCase "Beta".toList = "beta".toList →
      toLowerCase "al".toList = "al".toList →
      ∀ d1 d2 : Str,
        (searchInput toLowerCase "al".toList
          [⟨"Alpha".toList, d1⟩, ⟨"Beta".toList, d2⟩]).map Card.display =
          ["block".toList, "none".toList]) := by
  have key : ∀ (v : Str) (cs : List Card), searchInput toLowerCase v cs =
      cs.map (fun card =>
        { textContent := card.textContent
          display := if toLowerCase v <:+: toLowerCase card.textContent
            then "block".toList else "none".toList }) := by
    intro v cs
    simp only [searchInput]
    apply List.map_congr_left
    intro card _
    by_cases h : toLowerCase v <:+: toLowerCase card.textContent
    · simp [h, (includes_iff_occurs _ _).mpr h]
    · have h2 : includes (toLowerCase card.textContent) (toLowerCase v) = false := by
        cases hb : includes (toLowerCase card.textContent) (toLowerCase v) with
        | false => rfl
        | true => exact absurd ((includes_iff_occurs _ _).mp hb) h
      simp [h, h2]
  refine ⟨key value cards, ?_, ?_⟩
  · intro earlier
    rw [key value, key earlier, key value, List.map_map]
    rfl
  · intro hA hB hal d1 d2
    rw [key]
    simp only [List.map, hA, hB, hal]
    decide

/-- Witness of C8 with the lower-casing of the ASCII letters. -/
theorem searchInput_visibility_witness :
    (searchInput asciiLower "al".toList
      [⟨"Alpha".toList, []⟩, ⟨"Beta".toList, "block".toList⟩]).map Card.display =
      ["block".toList, "none".toList] :=
  (searchInput_visibility asciiLower [] []).2.2 (by decide) (by decide) (by decide) _ _

/-- C9, the code at the failing input: for an article without `tags` the
loader renders a card whose `onclick` value calls `showArticleDetail` on the
article, and `showArticleDetail` on that article raises a `TypeError` and
appends nothing to the page. -/
theorem showArticleDetail_untagged_raises (stringify : Article → Str) (page : Page) :
    onclickAttr stringify untaggedArticle =
      "showArticleDetail(".toList ++ escapeQuot (stringify untaggedArticle) ++ ")".toList ∧
    tagChips untaggedArticle = [] ∧
    showArticleDetail untaggedArticle page =
      .error .typeError :=
  ⟨rfl, rfl, rfl⟩


end BlogLoader
